import Mathlib

/-!
Verification of the Firestore data-access layer (`data_access` library):
the generic document DAO (synchronous and asynchronous variants), the
retry policy applied at each call site, and the Firestore-document-based
distributed lock.

The Python source is shallowly embedded: each DAO method is translated
into a pure Lean function over an explicit store model.  Store
round-trips whose outcome is not determined by the in-memory store model
(e.g. a read-back racing with concurrent writers) are passed in as
explicit parameters, mirroring the responses the environment may give.
-/

namespace DataAccess

/-! ## Error taxonomy

`errors.py` defines `DAOError` and `DAONotFoundError` as two unrelated
`Exception` subclasses.  We also model the raw transport errors coming
out of the Firestore client, and the Python-level errors (`TypeError`,
`ValueError`, `NameError`) that the code can raise. -/

inductive PyError where
  | daoError (message : String)
  | daoNotFoundError (message : String)
  | transportError (message : String)
  | typeError (message : String)
  | valueError (message : String)
  | nameError (message : String)
  deriving DecidableEq, Repr

def PyError.isDAOError : PyError → Bool
  | .daoError _ => true
  | _ => false

def PyError.isDAONotFoundError : PyError → Bool
  | .daoNotFoundError _ => true
  | _ => false

/-- Python raises `TypeError` when a constructor is called with a keyword
argument that does not match a parameter.  `DAONotFoundError.__init__`
accepts only `message`, so any other keyword is rejected.  The sync
`update` calls it as `DAONotFoundError(id=..., collection=...)`. -/
def daoNotFoundErrorCall (kwargs : List (String × String)) : PyError :=
  match kwargs.find? (fun kv => kv.1 != "message") with
  | some kv =>
      .typeError ("DAONotFoundError.__init__() got an unexpected keyword argument " ++ kv.1)
  | none =>
      match kwargs.lookup "message" with
      | some m => .daoNotFoundError m
      | none => .typeError "DAONotFoundError.__init__() missing required argument: message"

/-! ## Retry policy (tenacity)

Every DAO method is wrapped in
`@retry(stop=stop_after_attempt(3), wait=wait_random(..), retry=?, reraise=True)`.
`tenacity` retries an attempt whose exception satisfies the `retry`
predicate, up to 3 attempts in total, and re-raises the last error.
When no `retry=` argument is given (as on `get`), tenacity retries on
EVERY exception.  The wrapped operation is `op : Nat → Except PyError α`,
indexed by the (1-based) attempt number so that transient outcomes can be
expressed.  The result also reports how many attempts were consumed. -/

def retryGo (shouldRetry : PyError → Bool) (op : Nat → Except PyError α) :
    Nat → Nat → Except PyError α × Nat
  | k, fuel =>
    match op k with
    | .ok a => (.ok a, k)
    | .error e =>
      match fuel with
      | 0 => (.error e, k)
      | fuel + 1 =>
        if shouldRetry e then retryGo shouldRetry op (k + 1) fuel else (.error e, k)

/-- `stop_after_attempt maxAttempts` with retry predicate `shouldRetry`:
run `op` starting at attempt 1, with `maxAttempts - 1` re-attempts left. -/
def retryRun (shouldRetry : PyError → Bool) (maxAttempts : Nat)
    (op : Nat → Except PyError α) : Except PyError α × Nat :=
  retryGo shouldRetry op 1 (maxAttempts - 1)

/-- `get`'s decorator passes no `retry=` argument: every error is retried. -/
def getRetryPredicate : PyError → Bool := fun _ => true

/-- `create`'s decorator: `retry_if_not_exception_type(DAOError)`. -/
def createRetryPredicate : PyError → Bool := fun e => !e.isDAOError

/-- `delete` / `delete_all` / `update` decorators:
`retry_if_not_exception_type(DAONotFoundError)`. -/
def updateRetryPredicate : PyError → Bool := fun e => !e.isDAONotFoundError

/-! ## Store and record model

Field values as they come out of `json.loads(obj.model_dump_json())`,
plus the Firestore-native `Vector` wrapper the code may apply before
writing.  A document is a field map; a flat collection is an
association list from document key to document. -/

inductive FSScalar where
  | str (s : String)
  | num (n : Int)
  | boolean (b : Bool)
  | null
  deriving DecidableEq, Repr

/-- JSON field values (arrays are modelled as arrays of scalars: the
only arrays the verified operations inspect are embedding vectors,
i.e. arrays of numbers).  `vector` is the Firestore-native
`Vector(...)` wrapper that serialization may apply before a write. -/
inductive FSValue where
  | scalar (v : FSScalar)
  | arr (elems : List FSScalar)
  | vector (elems : List FSScalar)
  deriving DecidableEq, Repr

abbrev FSDoc := List (String × FSValue)

abbrev Store := List (String × FSDoc)

def Store.getDoc (store : Store) (docId : String) : Option FSDoc :=
  store.lookup docId

/-- One raw Firestore read via `doc_ref.get()` followed by the decode
step of `FirestoreDAO.get`: raise `DAONotFoundError` when the snapshot
does not exist, decode otherwise (both DAO variants, same body). -/
def fsGetOnce (store : Store) (collectionName docId : String) : Except PyError FSDoc :=
  match store.getDoc docId with
  | some d => .ok d
  | none => .error (.daoNotFoundError ("Item " ++ docId ++ " not found in " ++ collectionName))

/-- `FirestoreDAO.get` as deployed: the single-read body wrapped in its
retry decorator (3 attempts, retry on every error).  Returns the final
outcome together with the number of store reads performed. -/
def daoGet (store : Store) (collectionName docId : String) : Except PyError FSDoc × Nat :=
  retryRun getRetryPredicate 3 (fun _ => fsGetOnce store collectionName docId)

/-! ## Serialization of records before a write

Both `create` and `set` serialize via
`data = json.loads(obj.model_dump_json())`.  The ASYNC variant then runs
`if "embedding" in data: data["embedding"] = Vector(data["embedding"])`
before writing; the SYNC variant writes `data` as serialized, with no
special handling of any field. -/

/-- `Vector(x)`: wrap the serialized JSON array in the Firestore-native
vector type (the serialized `embedding` field is always a JSON array). -/
def pyVector : FSValue → FSValue
  | .arr elems => .vector elems
  | v => v

/-- Write payload of the asynchronous `create`/`set`
(`dao.py`, asynchronous variant, lines 120-127 and 212-218). -/
def asyncWritePayload (data : FSDoc) : FSDoc :=
  if (data.lookup "embedding").isSome then
    data.map (fun kv => if kv.1 = "embedding" then (kv.1, pyVector kv.2) else kv)
  else data

/-- Write payload of the synchronous `create`/`set`
(`dao.py`, synchronous variant, lines 122-127 and 183-193): the
serialized data unchanged. -/
def syncWritePayload (data : FSDoc) : FSDoc := data

def FSDoc.setField (d : FSDoc) (k : String) (v : FSValue) : FSDoc :=
  if (d.lookup k).isSome then d.map (fun kv => if kv.1 = k then (k, v) else kv)
  else d ++ [(k, v)]

/-- Field-by-field merge, as performed by `doc_ref.set(data, merge=True)`
and by `doc_ref.update(data)` on an existing document. -/
def FSDoc.mergeInto (old new : FSDoc) : FSDoc :=
  new.foldl (fun acc kv => acc.setField kv.1 kv.2) old

def Store.setDoc (store : Store) (docId : String) (d : FSDoc) : Store :=
  if (store.lookup docId).isSome then
    store.map (fun kv => if kv.1 = docId then (docId, d) else kv)
  else store ++ [(docId, d)]

/-! ## `create`

`create` writes the payload at key `str(obj_create.id)` with
`doc_ref.set(data)` (unconditional overwrite), then — when `return_obj`
is `True` — confirm-reads via `self.get(obj_create.id)`.  The whole body
sits in a `try` whose `except DAONotFoundError` clause re-raises as
`DAOError("Object ... could not be created in ...")`; every other error
propagates unchanged.  The confirm-read outcome is environment-supplied
(`readBack`): the store round-trip may fail or race a concurrent delete. -/

def createBody (collectionName objId : String) (returnObj : Bool)
    (readBack : Except PyError FSDoc) : Except PyError (Option FSDoc) :=
  if returnObj then
    match readBack with
    | .ok d => .ok (some d)
    | .error e =>
      if e.isDAONotFoundError then
        .error (.daoError ("Object " ++ objId ++ " could not be created in " ++ collectionName))
      else .error e
  else .ok none

/-- The store mutation performed by the asynchronous `create` before the
confirm-read: overwrite at `str(obj_create.id)` with the async payload. -/
def asyncCreateWrite (store : Store) (objId : String) (data : FSDoc) : Store :=
  store.setDoc objId (asyncWritePayload data)

/-- The store mutation performed by the synchronous `create`: overwrite
at `str(obj_create.id)` with the serialized data unchanged. -/
def syncCreateWrite (store : Store) (objId : String) (data : FSDoc) : Store :=
  store.setDoc objId (syncWritePayload data)

/-- Store mutation of the asynchronous `set` (`doc_ref.set(data, merge=True)`
with the async payload). -/
def asyncSetWrite (store : Store) (objId : String) (data : FSDoc) : Store :=
  match store.getDoc objId with
  | some old => store.setDoc objId (FSDoc.mergeInto old (asyncWritePayload data))
  | none => store.setDoc objId (asyncWritePayload data)

/-- Store mutation of the synchronous `set` (`doc_ref.set(data, merge=True)`
with the serialized data unchanged). -/
def syncSetWrite (store : Store) (objId : String) (data : FSDoc) : Store :=
  match store.getDoc objId with
  | some old => store.setDoc objId (FSDoc.mergeInto old (syncWritePayload data))
  | none => store.setDoc objId (syncWritePayload data)

/-! ## `update`

`update(obj_update)` first checks `self.exists(obj_update.id)`, raising
a not-found error otherwise (BEFORE any write).  Then it applies the
serialized fields with `doc_ref.update(data)`, reads the document back
with `self.get(obj_update.id)` and compares the decoded object
field-for-field with `obj_update` (pydantic `==`), raising
`DAOError("... could not be updated ...")` on mismatch.  The read-back
outcome is environment-supplied.  The SYNC variant's not-found branch
constructs the error as `DAONotFoundError(id=..., collection=...)`,
keyword arguments its `__init__` does not accept. -/

def asyncUpdate (store : Store) (collectionName objId : String) (data : FSDoc)
    (existsResult : Bool) (readBack : Except PyError FSDoc) :
    Except PyError FSDoc × Store :=
  if existsResult = false then
    (.error (.daoNotFoundError ("Item " ++ objId ++ " not found in " ++ collectionName)), store)
  else
    let store1 :=
      match store.getDoc objId with
      | some old => store.setDoc objId (FSDoc.mergeInto old data)
      | none => store.setDoc objId data
    match readBack with
    | .ok obj =>
      if obj = data then (.ok obj, store1)
      else
        (.error (.daoError ("Object " ++ objId ++ " could not be updated in " ++ collectionName)),
         store1)
    | .error e => (.error e, store1)

def syncUpdate (store : Store) (collectionName objId : String) (data : FSDoc)
    (existsResult : Bool) (readBack : Except PyError FSDoc) :
    Except PyError FSDoc × Store :=
  if existsResult = false then
    (.error (daoNotFoundErrorCall [("id", objId), ("collection", collectionName)]), store)
  else
    let store1 :=
      match store.getDoc objId with
      | some old => store.setDoc objId (FSDoc.mergeInto old data)
      | none => store.setDoc objId data
    match readBack with
    | .ok obj =>
      if obj = data then (.ok obj, store1)
      else
        (.error (.daoError ("Object " ++ objId ++ " could not be updated in " ++ collectionName)),
         store1)
    | .error e => (.error e, store1)

/-! ## Query specification

`FirestoreFilter` / `FirestoreOrder` mirror `schemas.py`.  The
asynchronous schema module additionally defines the filter-combination
operator; modelled from the spec sentence "Filters combine via AND or
OR; default is AND". -/

structure FirestoreFilter where
  field_path : String
  op_string : String
  value : FSValue
  deriving DecidableEq, Repr

structure FirestoreOrder where
  field_path : String
  direction : String
  deriving DecidableEq, Repr

/-- Modelled from the spec: the filter-combination operator of the
asynchronous schema module (`FirestoreFilterOperator`), whose source
file is not in the repository snapshot; "Filters combine via AND or OR;
default is AND". -/
inductive FirestoreFilterOperator where
  | AND
  | OR
  deriving DecidableEq, Repr

/-- Semantics of a single `FieldFilter(field_path, op_string, value)`,
per Firestore's documented operator meanings over our value model. -/
def opMatches (op : String) (fieldVal target : FSValue) : Bool :=
  match op with
  | "==" => fieldVal = target
  | "!=" => fieldVal != target
  | "<" =>
    match fieldVal, target with
    | .scalar (.num a), .scalar (.num b) => a < b
    | .scalar (.str a), .scalar (.str b) => a < b
    | _, _ => false
  | "<=" =>
    match fieldVal, target with
    | .scalar (.num a), .scalar (.num b) => a ≤ b
    | .scalar (.str a), .scalar (.str b) => a ≤ b
    | _, _ => false
  | ">" =>
    match fieldVal, target with
    | .scalar (.num a), .scalar (.num b) => b < a
    | .scalar (.str a), .scalar (.str b) => b < a
    | _, _ => false
  | ">=" =>
    match fieldVal, target with
    | .scalar (.num a), .scalar (.num b) => b ≤ a
    | .scalar (.str a), .scalar (.str b) => b ≤ a
    | _, _ => false
  | "in" =>
    match fieldVal, target with
    | .scalar s, .arr l => l.contains s
    | _, _ => false
  | "not-in" =>
    match fieldVal, target with
    | .scalar s, .arr l => !l.contains s
    | _, _ => false
  | "array_contains" =>
    match fieldVal, target with
    | .arr l, .scalar s => l.contains s
    | _, _ => false
  | "array_contains_any" =>
    match fieldVal, target with
    | .arr l, .arr m => l.any (fun s => m.contains s)
    | _, _ => false
  | _ => false

def FirestoreFilter.matches (f : FirestoreFilter) (doc : FSDoc) : Bool :=
  match doc.lookup f.field_path with
  | some v => opMatches f.op_string v f.value
  | none => false

/-- `And(filters=...)` / `Or(filters=...)` composite filters. -/
inductive UnionFilter where
  | and (fs : List FirestoreFilter)
  | or (fs : List FirestoreFilter)
  deriving DecidableEq, Repr

def UnionFilter.matches : UnionFilter → FSDoc → Bool
  | .and fs, d => fs.all (fun f => f.matches d)
  | .or fs, d => fs.any (fun f => f.matches d)

def matchesOptFilter (flt : Option UnionFilter) (d : FSDoc) : Bool :=
  match flt with
  | some u => u.matches d
  | none => true

/-- Filter construction shared by the asynchronous `list` (lines 380-391):
build one `FieldFilter` per filter, then — when the list is non-empty —
combine with `And` or `Or` according to the operator. -/
def listFilterUnion (filters : List FirestoreFilter)
    (filterOperator : FirestoreFilterOperator) : Option UnionFilter :=
  if filters.isEmpty then none
  else
    match filterOperator with
    | .AND => some (.and filters)
    | .OR => some (.or filters)

/-- Filter construction of the asynchronous `search` (lines 230-241).
The `AND` arm evaluates `And(filters=field_filters)`; the `OR` arm
evaluates `Or(filters=fresultield_filters)`, and the name
`fresultield_filters` is not defined anywhere, so Python raises
`NameError` at that point. -/
def searchFilterUnion (filters : List FirestoreFilter)
    (filterOperator : FirestoreFilterOperator) :
    Except PyError (Option UnionFilter) :=
  if filters.isEmpty then .ok none
  else
    match filterOperator with
    | .AND => .ok (some (.and filters))
    | .OR => .error (.nameError "name fresultield_filters is not defined")

/-! ## `list`

The store's query semantics over a key-ordered collection: apply the
filter, then the optional ordering, then `offset`/`limit` (Firestore
applies these to the final query object irrespective of builder-call
order).  Streamed snapshots all exist and decode via the schema. -/

def fsValueLeKey (a b : FSValue) : Bool :=
  match a, b with
  | .scalar (.num x), .scalar (.num y) => x ≤ y
  | .scalar (.str x), .scalar (.str y) => x ≤ y
  | _, _ => true

def applyOrder (ord : Option FirestoreOrder) (docs : List FSDoc) : List FSDoc :=
  match ord with
  | none => docs
  | some o =>
    let sorted := docs.mergeSort (fun d e =>
      fsValueLeKey ((d.lookup o.field_path).getD (.scalar .null))
        ((e.lookup o.field_path).getD (.scalar .null)))
    if o.direction = "DESCENDING" then sorted.reverse else sorted

def runQuery (docs : List (String × FSDoc)) (flt : Option UnionFilter)
    (ord : Option FirestoreOrder) (off : Nat) (lim : Option Nat) : List FSDoc :=
  let filtered := (docs.map Prod.snd).filter (fun d => matchesOptFilter flt d)
  let ordered := applyOrder ord filtered
  let offs := ordered.drop off
  match lim with
  | some l => offs.take l
  | none => offs

/-- `FirestoreDAO.list` (async variant, lines 353-399; the sync variant,
lines 284-321, has the same pagination logic): pagination is configured
as `offset(page * size).limit(size)` ONLY when `page is not None and
size is not None`; the filter union and the optional ordering are then
applied, and the stream is decoded. -/
def daoList (docs : List (String × FSDoc)) (page size : Option Nat)
    (filters : List FirestoreFilter) (filterOperator : FirestoreFilterOperator)
    (orderBy : Option FirestoreOrder) : List FSDoc :=
  let paging : Nat × Option Nat :=
    match page, size with
    | some p, some s => (p * s, some s)
    | _, _ => (0, none)
  runQuery docs (listFilterUnion filters filterOperator) orderBy paging.1 paging.2

/-! ## `search`

`search` builds the filtered query exactly as `list` does (modulo the
`OR`-arm typo), then calls `find_nearest(vector_field="embedding",
query_vector=Vector(embedding), distance_measure=..,
distance_result_field=.., limit=..)` and streams the result.  We model
the constructed vector query; the nearest-neighbor ranking itself is
executed by the store. -/

structure VectorQuery where
  base : Option UnionFilter
  vector_field : String
  query_vector : FSValue
  distance_measure : String
  distance_result_field : String
  limit : Nat
  deriving DecidableEq, Repr

def daoSearchQuery (embedding : List FSScalar)
    (distanceMeasure : String) (distanceResultField : String) (limit : Nat)
    (filters : List FirestoreFilter) (filterOperator : FirestoreFilterOperator) :
    Except PyError VectorQuery :=
  match searchFilterUnion filters filterOperator with
  | .error e => .error e
  | .ok flt =>
    .ok { base := flt
          vector_field := "embedding"
          query_vector := .vector embedding
          distance_measure := distanceMeasure
          distance_result_field := distanceResultField
          limit := limit }

/-- The records a vector query may yield: documents satisfying the base
filter, ranked by the store; `search` decodes each streamed snapshot. -/
def vectorQueryCandidates (docs : List (String × FSDoc)) (q : VectorQuery) : List FSDoc :=
  (docs.map Prod.snd).filter (fun d => matchesOptFilter q.base d)

/-! ## DAO configuration mutators

`collection_name` defaults to `""`; `top_level_collection` and
`top_level_document` default to `None`.  The mutators run `isinstance`
checks on their argument (modelled by `PyArg`'s type tags) and raise
`DAOError` on a type mismatch; `set_top_level_document` additionally
requires `top_level_collection` to be already set. -/

inductive PyArg where
  | pyStr (s : String)
  | pyUUID (u : String)
  | pyInt (n : Int)
  | pyNone
  deriving DecidableEq, Repr

structure DAOConfig where
  collection_name : String
  top_level_collection : Option String
  top_level_document : Option String
  deriving DecidableEq, Repr

def DAOConfig.init : DAOConfig :=
  { collection_name := "", top_level_collection := none, top_level_document := none }

/-- Python truthiness of the optional namespace values (`None` and the
empty string are falsy). -/
def pyTruthy : Option String → Bool
  | none => false
  | some s => s != ""

/-- The `collection` property: the two-hop namespace prefix is traversed
only when BOTH `top_level_collection` and `top_level_document` are
truthy; otherwise the terminal collection hangs off the client root. -/
def DAOConfig.collectionPath (cfg : DAOConfig) : List String :=
  if pyTruthy cfg.top_level_collection && pyTruthy cfg.top_level_document then
    [(cfg.top_level_collection).getD "", (cfg.top_level_document).getD "", cfg.collection_name]
  else [cfg.collection_name]

def set_top_level_document (cfg : DAOConfig) (arg : PyArg) : Except PyError DAOConfig :=
  match arg with
  | .pyUUID u =>
    if cfg.top_level_collection = none then
      .error (.daoError "Top level document can only be set on DAOs with a top level collection")
    else .ok { cfg with top_level_document := some u }
  | _ => .error (.daoError "'top_level_document' should be a UUID")

def reset_top_level_document (cfg : DAOConfig) : DAOConfig :=
  { cfg with top_level_document := none }

def set_top_level_collection (cfg : DAOConfig) (arg : PyArg) : Except PyError DAOConfig :=
  match arg with
  | .pyStr s => .ok { cfg with top_level_collection := some s }
  | .pyUUID u => .ok { cfg with top_level_collection := some u }
  | _ => .error (.daoError "'top_level_collection' should be a str or UUID object")

def set_collection_name (cfg : DAOConfig) (arg : PyArg) : Except PyError DAOConfig :=
  match arg with
  | .pyStr s => .ok { cfg with collection_name := s }
  | .pyUUID u => .ok { cfg with collection_name := u }
  | _ => .error (.daoError "'collection_name' should be a str or UUID object")

/-- "Exactly one of the namespace pair is set" — the configuration the
claim says every mutator sequence must be prevented from reaching. -/
def DAOConfig.exactlyOneNamespaceField (cfg : DAOConfig) : Bool :=
  (cfg.top_level_collection).isSome != (cfg.top_level_document).isSome

/-! ## Distributed lock (`lock.py`)

The lock document schema (`schemas.FirestoreLock`) carries the fields
used by `lock.py`: `lock_owner`, `lock_created` (a UTC timestamp,
modelled in seconds), and `lock_created_after_attempt`.  Timestamps are
integers; only their ordering and differences matter here. -/

structure FirestoreLockDoc where
  lock_owner : String
  lock_created : Int
  lock_created_after_attempt : Nat
  deriving DecidableEq, Repr

/-- `FirestoreLock.TIME_TO_LIVE = 60.0` (seconds). -/
def TIME_TO_LIVE : Int := 60

/-- Abstract model of `uuid.uuid5(uuid.NAMESPACE_OID, name)`
(`utils.create_uuid`): a name-based UUID, deterministic and injective in
the name hashed. -/
structure UUID5 where
  name : String
  deriving DecidableEq, Repr

def create_uuid (name : String) : UUID5 := ⟨name⟩

/-- `FirestoreLock._set_lock_collection_ref`: nest the lock collection
under `top_level_collection/top_level_document` when both are truthy
(the constructor defaults are `""`), else at the client root. -/
def lockCollectionPath (lock_collection top_level_collection top_level_document : String) :
    List String :=
  if top_level_collection != "" && top_level_document != "" then
    [top_level_collection, top_level_document, lock_collection]
  else [lock_collection]

structure FirestoreLockRef where
  path : List String
  lock_owner : String
  deriving DecidableEq, Repr

/-- `FirestoreLock.__init__`: reject passing exactly one of
`top_level_collection`/`top_level_document` with `ValueError`, else
record the lock collection path and the owner. -/
def lockInit (lock_collection lock_owner top_level_collection top_level_document : String) :
    Except PyError FirestoreLockRef :=
  if (top_level_collection != "" || top_level_document != "")
      && !(top_level_collection != "" && top_level_document != "") then
    .error (.valueError "Pass both top_level_collection and top_level_document, or neither")
  else
    .ok { path := lockCollectionPath lock_collection top_level_collection top_level_document
          lock_owner := lock_owner }

/-- `FirestoreLock.lock_document_id`: `create_uuid` applied to the LAST
component of the lock collection path. -/
def lock_document_id (l : FirestoreLockRef) : UUID5 :=
  create_uuid (l.path.getLastD "")

/-! ## One round of `FirestoreLock.acquire`

Per round the code reads the lock document; if it does not exist it
attempts `doc_ref.create(...)` (atomic create-if-absent, which a
concurrent creator can win — `AlreadyExists`); if it exists, it parses
it and compares `lock_created + TIME_TO_LIVE < now`: strictly past the
TTL it unconditionally overwrites with `doc_ref.set(...)` and returns,
otherwise it sleeps and moves to the next round.  The second component
is the lock document this round wrote, if any. -/

inductive AcquireOutcome where
  | acquiredCreate
  | acquiredTakeover
  | contention
  deriving DecidableEq, Repr

def acquireRound (existing : Option FirestoreLockDoc) (candidate : FirestoreLockDoc)
    (now : Int) (createWinsRace : Bool) :
    AcquireOutcome × Option FirestoreLockDoc :=
  match existing with
  | none =>
    if createWinsRace then (.acquiredCreate, some candidate) else (.contention, none)
  | some lockDoc =>
    if lockDoc.lock_created + TIME_TO_LIVE < now then (.acquiredTakeover, some candidate)
    else (.contention, none)

/-- The candidate lock document `acquire` would write on a given round:
`FirestoreLock(id=..., lock_owner=self.lock_owner)` initially, with
`lock_created` refreshed and `lock_created_after_attempt` incremented
before each later round. -/
def candidateLockDoc (owner : String) (created : Int) (attempt : Nat) : FirestoreLockDoc :=
  { lock_owner := owner, lock_created := created, lock_created_after_attempt := attempt }

/-! ## Cascading delete (`_delete_collection`)

A document subtree: a document has a key and a list of subcollections,
each of which is a key-ordered list of documents.  `_delete_collection`
streams one batch (`limit(batch_size)`), breaks when the batch is empty,
and otherwise processes each batch document in order:

```
for d in docs:
    subcollections = d.reference.collections()
    d.reference.delete()
    for s in subcollections:
        self._delete_collection(s)
```

i.e. the document is deleted FIRST and its subcollections are
recursively drained afterwards.  It then re-queries with
`start_after(last_doc).limit(batch_size)`; since every document of the
batch was deleted and the stream is key-ordered, the next batch is the
remainder after dropping the processed prefix.  We record the trace of
document deletions in execution order. -/

inductive FDoc where
  | node (key : String) (subs : List (List FDoc))
  deriving Repr

inductive DelEvent where
  | del (key : String)
  deriving DecidableEq, Repr

theorem sizeOf_take_le [SizeOf α] (l : List α) (n : Nat) : sizeOf (l.take n) ≤ sizeOf l := by
  induction l generalizing n with
  | nil => simp
  | cons a t ih =>
    cases n with
    | zero => simp; omega
    | succ m =>
      simp only [List.take_succ_cons, List.cons.sizeOf_spec]
      have := ih m
      omega

theorem sizeOf_drop_le [SizeOf α] (l : List α) (n : Nat) : sizeOf (l.drop n) ≤ sizeOf l := by
  induction l generalizing n with
  | nil => simp
  | cons a t ih =>
    cases n with
    | zero => simp
    | succ m =>
      simp only [List.drop_succ_cons, List.cons.sizeOf_spec]
      have := ih m
      omega

theorem sizeOf_drop_lt [SizeOf α] (l : List α) (n : Nat)
    (h : (l.take n).isEmpty = false) : sizeOf (l.drop n) < sizeOf l := by
  match l, n with
  | [], _ => simp at h
  | _ :: _, 0 => simp at h
  | a :: t, m + 1 =>
    simp only [List.drop_succ_cons, List.cons.sizeOf_spec]
    have h2 := sizeOf_drop_le t m
    omega

theorem one_le_sizeOf_list [SizeOf α] (l : List α) : 1 ≤ sizeOf l := by
  cases l with
  | nil => simp
  | cons a t => simp only [List.cons.sizeOf_spec]; omega

mutual

def delDocTrace (batchSize : Nat) : FDoc → List DelEvent
  | .node key subs => .del key :: delSubsTrace batchSize subs
termination_by d => sizeOf d

def delSubsTrace (batchSize : Nat) : List (List FDoc) → List DelEvent
  | [] => []
  | s :: rest => delCollTrace batchSize s ++ delSubsTrace batchSize rest
termination_by subs => sizeOf subs
decreasing_by
  · have := one_le_sizeOf_list rest
    simp only [List.cons.sizeOf_spec]
    omega
  · simp only [List.cons.sizeOf_spec]
    have := one_le_sizeOf_list s
    omega

def delBatchTrace (batchSize : Nat) : List FDoc → List DelEvent
  | [] => []
  | d :: rest => delDocTrace batchSize d ++ delBatchTrace batchSize rest
termination_by docs => sizeOf docs

def delCollTrace (batchSize : Nat) (docs : List FDoc) : List DelEvent :=
  if h : (docs.take batchSize).isEmpty then []
  else
    delBatchTrace batchSize (docs.take batchSize) ++
      delCollTrace batchSize (docs.drop batchSize)
termination_by sizeOf docs + 1
decreasing_by
  · have := sizeOf_take_le docs batchSize
    omega
  · have := sizeOf_drop_lt docs batchSize (by simpa using h)
    omega

end

/-- Whether a result surfaced the domain not-found error. -/
def exceptIsNotFound : Except PyError β → Bool
  | .error e => e.isDAONotFoundError
  | .ok _ => false

/-- `occursBefore a b l`: scanning `l` left to right, `a` is found
strictly before `b` (both occur, `a` first). -/
def occursBefore [DecidableEq α] (a b : α) : List α → Bool
  | [] => false
  | x :: rest => if x = a then rest.contains b
    else if x = b then false
    else occursBefore a b rest

/-! # Theorems -/

/-- C1, counterexample: `get(id)` on an id with no document does NOT
raise `NotFound` after a single store read — the deployed `get` (whose
decorator passes no retry predicate) performs all 3 attempts before
re-raising the `DAONotFoundError`. -/
theorem get_notfound_retried_counterexample :
    (daoGet [] "documents" "d1").1
      = .error (.daoNotFoundError "Item d1 not found in documents")
    ∧ (daoGet [] "documents" "d1").2 = 3
    ∧ ¬((daoGet [] "documents" "d1").2 = 1) := by
  refine ⟨rfl, rfl, by decide⟩

/-- C1, amended: `get` on a missing id surfaces `NotFound` only after the
retry policy exhausts all 3 attempts — its call site retries every error,
domain `NotFound` included, as do persistent transport errors; the
mutating call sites do exclude their selected domain errors from retry
(`create` never re-attempts a `DAOError`, `update`/`delete`/`delete_all`
never re-attempt a `DAONotFoundError`), so at those call sites only other
errors (e.g. transport/store errors) are re-attempted up to 3 total
attempts. -/
theorem get_retry_policy_amended (store : Store) (coll docId : String)
    (h : store.lookup docId = none) :
    daoGet store coll docId
      = (.error (.daoNotFoundError ("Item " ++ docId ++ " not found in " ++ coll)), 3)
    ∧ (∀ msg, getRetryPredicate (.daoNotFoundError msg) = true)
    ∧ (∀ msg, createRetryPredicate (.daoError msg) = false)
    ∧ (∀ msg, updateRetryPredicate (.daoNotFoundError msg) = false)
    ∧ (∀ msg, retryRun updateRetryPredicate 3
        (fun _ => (Except.error (.transportError msg) : Except PyError FSDoc))
        = (.error (.transportError msg), 3)) := by
  refine ⟨?_, fun _ => rfl, fun _ => rfl, fun _ => rfl, fun _ => rfl⟩
  simp [daoGet, retryRun, retryGo, fsGetOnce, Store.getDoc, h, getRetryPredicate]

/-- C1 witness: the amended theorem applied to the empty store. -/
theorem get_retry_policy_amended_witness :
    daoGet [] "documents" "d1"
      = (.error (.daoNotFoundError "Item d1 not found in documents"), 3) :=
  (get_retry_policy_amended [] "documents" "d1" rfl).1

theorem delBatchTrace_append (bs : Nat) (l1 l2 : List FDoc) :
    delBatchTrace bs (l1 ++ l2) = delBatchTrace bs l1 ++ delBatchTrace bs l2 := by
  induction l1 with
  | nil => simp [delBatchTrace]
  | cons d rest ih => simp [delBatchTrace, ih]

theorem delBatchTrace_eq_bind (bs : Nat) (docs : List FDoc) :
    delBatchTrace bs docs = docs.flatMap (delDocTrace bs) := by
  induction docs with
  | nil => simp [delBatchTrace]
  | cons d rest ih => simp [delBatchTrace, ih]

/-- The batched cursor loop of `_delete_collection` produces exactly the
trace of one uninterrupted in-order pass over the collection: each batch
covers the next `batchSize` documents, the cursor advances past the last
processed key, and the loop stops once a batch comes back empty. -/
theorem delCollTrace_eq_batch (bs : Nat) (hbs : 0 < bs) (docs : List FDoc) :
    delCollTrace bs docs = delBatchTrace bs docs := by
  generalize hn : docs.length = n
  induction n using Nat.strong_induction_on generalizing docs with
  | _ n ih =>
    rw [delCollTrace]
    by_cases hemp : (docs.take bs).isEmpty
    · have hd : docs = [] := by
        cases docs with
        | nil => rfl
        | cons a t =>
          cases bs with
          | zero => omega
          | succ m => simp [List.take_succ_cons] at hemp
      subst hd
      simp [delBatchTrace]
    · simp only [hemp, dite_false]
      have hne : docs ≠ [] := by
        intro hh
        subst hh
        simp at hemp
      have hlt : (docs.drop bs).length < n := by
        subst hn
        rw [List.length_drop]
        have hpos : 0 < docs.length := List.length_pos.mpr hne
        omega
      rw [ih _ hlt _ rfl, ← delBatchTrace_append, List.take_append_drop]
      simp

/-- C2, counterexample: for the collection holding a single document `p`
with one subcollection containing `c`, the cascading-delete trace is
`[del p, del c]` — the document is deleted BEFORE its subcollection is
recursively deleted, not after as claimed. -/
theorem cascading_delete_order_counterexample :
    delCollTrace 300 [FDoc.node "p" [[FDoc.node "c" []]]]
      = [DelEvent.del "p", DelEvent.del "c"]
    ∧ occursBefore (DelEvent.del "c") (DelEvent.del "p")
        (delCollTrace 300 [FDoc.node "p" [[FDoc.node "c" []]]]) = false := by
  have htr : delCollTrace 300 [FDoc.node "p" [[FDoc.node "c" []]]]
      = [DelEvent.del "p", DelEvent.del "c"] := by
    rw [delCollTrace_eq_batch 300 (by omega)]
    simp only [delBatchTrace, delDocTrace, delSubsTrace]
    rw [delCollTrace_eq_batch 300 (by omega)]
    simp [delBatchTrace, delDocTrace, delSubsTrace]
  refine ⟨htr, ?_⟩
  rw [htr]
  decide

/-- C2, amended: for every positive batch size, the batched cursor loop
of `_delete_collection` deletes every document of the collection exactly
once, in key order — each batch is processed in order, the cursor
advances past the last processed key, and the loop terminates when a
batch returns zero documents — and for each document the loop deletes
the document itself FIRST and only then enumerates and recursively
deletes its subcollections. -/
theorem cascading_delete_amended (bs : Nat) (hbs : 0 < bs) (docs : List FDoc) :
    delCollTrace bs docs = docs.flatMap (delDocTrace bs)
    ∧ (∀ key subs, delDocTrace bs (FDoc.node key subs)
        = DelEvent.del key :: delSubsTrace bs subs)
    ∧ delCollTrace bs [] = [] := by
  refine ⟨?_, fun key subs => by rw [delDocTrace], by rw [delCollTrace]; simp⟩
  rw [delCollTrace_eq_batch bs hbs, delBatchTrace_eq_bind]

/-- C2 witness: the amended theorem applied at batch size 300 to a
two-level subtree. -/
theorem cascading_delete_amended_witness :
    delCollTrace 300 [FDoc.node "p" [[FDoc.node "c" []]]]
      = [FDoc.node "p" [[FDoc.node "c" []]]].flatMap (delDocTrace 300) :=
  (cascading_delete_amended 300 (by decide) [FDoc.node "p" [[FDoc.node "c" []]]]).1

/-- C3: `search` with a non-empty filter list combined via `OR` never
reaches the nearest-neighbor query: the `OR` arm of its filter
construction evaluates the undefined name `fresultield_filters`
(`Or(filters=fresultield_filters)`, a typo for `field_filters`), so the
call raises `NameError` instead of yielding the disjunction-filtered
results — while `list`, with the identical operator, builds the `Or`
union filter correctly. -/
theorem search_or_namerror_eval :
    daoSearchQuery [FSScalar.num 1, FSScalar.num 2] "COSINE" "vector_distance" 10
      [{ field_path := "foo", op_string := "==", value := .scalar (.str "a") }]
      FirestoreFilterOperator.OR
      = .error (.nameError "name fresultield_filters is not defined")
    ∧ listFilterUnion
        [{ field_path := "foo", op_string := "==", value := .scalar (.str "a") }]
        FirestoreFilterOperator.OR
      = some (.or [{ field_path := "foo", op_string := "==", value := .scalar (.str "a") }])
    ∧ daoSearchQuery [FSScalar.num 1, FSScalar.num 2] "COSINE" "vector_distance" 10
        [{ field_path := "foo", op_string := "==", value := .scalar (.str "a") }]
        FirestoreFilterOperator.AND
      = .ok { base := some (.and [{ field_path := "foo", op_string := "==",
                                    value := .scalar (.str "a") }])
              vector_field := "embedding"
              query_vector := .vector [FSScalar.num 1, FSScalar.num 2]
              distance_measure := "COSINE"
              distance_result_field := "vector_distance"
              limit := 10 } := by
  refine ⟨rfl, rfl, rfl⟩

/-- C4: on an `acquire` round that finds an existing lock document, if
`now` is strictly past `lock_created + TIME_TO_LIVE` (elapsed time
strictly exceeds the fixed 60-second TTL) the round unconditionally
overwrites the lock document with the candidate naming the current
owner and returns acquired-by-takeover; if the elapsed time does not
exceed 60 seconds, the round writes nothing and reports contention. -/
theorem lock_ttl_takeover (d : FirestoreLockDoc) (owner : String)
    (created now : Int) (attempt : Nat) (race : Bool) :
    (TIME_TO_LIVE < now - d.lock_created →
      acquireRound (some d) (candidateLockDoc owner created attempt) now race
        = (.acquiredTakeover, some (candidateLockDoc owner created attempt))
      ∧ (candidateLockDoc owner created attempt).lock_owner = owner)
    ∧ (now - d.lock_created ≤ TIME_TO_LIVE →
      acquireRound (some d) (candidateLockDoc owner created attempt) now race
        = (.contention, none)) := by
  constructor
  · intro h
    refine ⟨?_, rfl⟩
    simp only [acquireRound, if_pos (by omega : d.lock_created + TIME_TO_LIVE < now)]
  · intro h
    simp only [acquireRound, if_neg (by omega : ¬d.lock_created + TIME_TO_LIVE < now)]

/-- C4 witness: takeover at 61 elapsed seconds, no overwrite at 60. -/
theorem lock_ttl_takeover_witness :
    acquireRound (some (candidateLockDoc "a" 0 0)) (candidateLockDoc "b" 61 1) 61 false
      = (.acquiredTakeover, some (candidateLockDoc "b" 61 1))
    ∧ acquireRound (some (candidateLockDoc "a" 0 0)) (candidateLockDoc "b" 60 1) 60 false
      = (.contention, none) :=
  ⟨((lock_ttl_takeover (candidateLockDoc "a" 0 0) "b" 61 61 1 false).1 (by decide)).1,
   (lock_ttl_takeover (candidateLockDoc "a" 0 0) "b" 60 60 1 false).2 (by decide)⟩

/-- C5: for a record whose id has no existing document, the synchronous
`update` does not fail with `NotFound`: its not-found branch constructs
`DAONotFoundError(id=..., collection=...)`, keyword arguments the
`DAONotFoundError.__init__(self, message)` signature does not accept, so
Python raises `TypeError` instead (the store is still left unchanged,
the failure happening before any write).  The asynchronous variant
behaves as the claim states. -/
theorem sync_update_notfound_typeerror_eval :
    (syncUpdate [] "documents" "d1" [("foo", .scalar (.str "a"))] false
        (.error (.transportError "unused"))).1
      = .error (.typeError
          "DAONotFoundError.__init__() got an unexpected keyword argument id")
    ∧ (syncUpdate [] "documents" "d1" [("foo", .scalar (.str "a"))] false
        (.error (.transportError "unused"))).2 = []
    ∧ (asyncUpdate [] "documents" "d1" [("foo", .scalar (.str "a"))] false
        (.error (.transportError "unused"))).1
      = .error (.daoNotFoundError "Item d1 not found in documents") := by
  refine ⟨rfl, rfl, rfl⟩

/-- C6: when `create(..., return_obj=True)`'s confirm-read reports
not-found, the whole operation fails with `DAOError` ("could not be
created"), never with `NotFound`: the `except DAONotFoundError` clause
translates the internal not-found into `DAOError`; both DAO variants
share this body shape. -/
theorem create_confirm_read_translated (coll objId msg : String) :
    createBody coll objId true (.error (.daoNotFoundError msg))
      = .error (.daoError ("Object " ++ objId ++ " could not be created in " ++ coll))
    ∧ exceptIsNotFound
        (createBody coll objId true (.error (.daoNotFoundError msg))) = false := by
  refine ⟨rfl, ?_⟩
  simp [createBody, exceptIsNotFound, PyError.isDAONotFoundError, PyError.isDAOError]

/-- C7, counterexample: starting from the default configuration (both
namespace fields unset), `set_top_level_collection("tenants")` succeeds
and leaves exactly one of the pair set — no configuration error is
raised, contradicting the claim that every mutator sequence reaching
such a state fails. -/
theorem namespace_pair_counterexample :
    set_top_level_collection DAOConfig.init (.pyStr "tenants")
      = .ok { collection_name := "", top_level_collection := some "tenants",
              top_level_document := none }
    ∧ DAOConfig.exactlyOneNamespaceField
        { collection_name := "", top_level_collection := some "tenants",
          top_level_document := none } = true := by
  refine ⟨rfl, rfl⟩

/-- C7, amended: only ONE direction of the pairing is enforced, and only
by the DAO's document mutator: `set_top_level_document` fails with a
configuration error (`DAOError`) while `top_level_collection` is unset,
but `set_top_level_collection` succeeds unconditionally on a well-typed
argument, leaving the collection set alone; the half-configured
namespace is simply never applied (the collection path stays
un-namespaced while the document is unset).  The lock, by contrast,
rejects either half-pair at construction time with `ValueError`. -/
theorem namespace_pair_amended (cfg cfg2 : DAOConfig) (u s : String)
    (lc o tlc tld : String) :
    (cfg.top_level_collection = none →
      set_top_level_document cfg (.pyUUID u)
        = .error (.daoError
            "Top level document can only be set on DAOs with a top level collection"))
    ∧ (set_top_level_collection cfg (.pyStr s)).isOk = true
    ∧ (cfg.top_level_document = none → cfg.collectionPath = [cfg.collection_name])
    ∧ (set_top_level_collection cfg (.pyStr s) = .ok cfg2 →
        cfg.top_level_document = none →
        cfg2.top_level_collection = some s
        ∧ cfg2.collectionPath = [cfg2.collection_name])
    ∧ (tlc ≠ "" → lockInit lc o tlc ""
        = .error (.valueError
            "Pass both top_level_collection and top_level_document, or neither"))
    ∧ (tld ≠ "" → lockInit lc o "" tld
        = .error (.valueError
            "Pass both top_level_collection and top_level_document, or neither"))
    ∧ lockInit lc o "" ""
      = .ok { path := [lc], lock_owner := o } := by
  refine ⟨?_, rfl, ?_, ?_, ?_, ?_, rfl⟩
  · intro hc
    simp [set_top_level_document, hc]
  · intro hd
    simp [DAOConfig.collectionPath, hd, pyTruthy]
  · intro heq hd
    simp only [set_top_level_collection, Except.ok.injEq] at heq
    subst heq
    refine ⟨rfl, ?_⟩
    simp [DAOConfig.collectionPath, hd, pyTruthy]
  · intro htlc
    simp [lockInit, lockCollectionPath, htlc]
  · intro htld
    simp [lockInit, lockCollectionPath, htld]

/-- C7 witness: the amended theorem exercised at the default
configuration and at the half-configured DAO that
`set_top_level_collection("tenants")` produces from it: the document
mutator is rejected while the collection is unset, the half-configured
namespace is not applied to the collection path, and the lock
constructor rejects both half-pairs. -/
theorem namespace_pair_amended_witness :
    set_top_level_document DAOConfig.init (.pyUUID "7c9e6679-7425-40de-944b-e07fc1f90ae7")
      = .error (.daoError
          "Top level document can only be set on DAOs with a top level collection")
    ∧ (({ collection_name := "", top_level_collection := some "tenants",
          top_level_document := none } : DAOConfig).top_level_collection = some "tenants"
        ∧ ({ collection_name := "", top_level_collection := some "tenants",
             top_level_document := none } : DAOConfig).collectionPath = [""])
    ∧ lockInit "locks" "me" "tenants" ""
      = .error (.valueError
          "Pass both top_level_collection and top_level_document, or neither")
    ∧ lockInit "locks" "me" "" "t1"
      = .error (.valueError
          "Pass both top_level_collection and top_level_document, or neither") :=
  ⟨(namespace_pair_amended DAOConfig.init
      { collection_name := "", top_level_collection := some "tenants",
        top_level_document := none }
      "7c9e6679-7425-40de-944b-e07fc1f90ae7" "tenants" "locks" "me" "tenants" "t1").1 rfl,
   (namespace_pair_amended DAOConfig.init
      { collection_name := "", top_level_collection := some "tenants",
        top_level_document := none }
      "7c9e6679-7425-40de-944b-e07fc1f90ae7" "tenants" "locks" "me" "tenants" "t1").2.2.2.1
      rfl rfl,
   (namespace_pair_amended DAOConfig.init
      { collection_name := "", top_level_collection := some "tenants",
        top_level_document := none }
      "7c9e6679-7425-40de-944b-e07fc1f90ae7" "tenants" "locks" "me" "tenants" "t1").2.2.2.2.1
      (by decide),
   (namespace_pair_amended DAOConfig.init
      { collection_name := "", top_level_collection := some "tenants",
        top_level_document := none }
      "7c9e6679-7425-40de-944b-e07fc1f90ae7" "tenants" "locks" "me" "tenants" "t1").2.2.2.2.2.1
      (by decide)⟩

theorem lookup_map_vectorize (l : List (String × FSValue)) (v : FSValue)
    (h : l.lookup "embedding" = some v) :
    (l.map (fun kv => if kv.1 = "embedding" then (kv.1, pyVector kv.2) else kv)).lookup
      "embedding" = some (pyVector v) := by
  induction l with
  | nil => simp at h
  | cons kv rest ih =>
    obtain ⟨k1, v1⟩ := kv
    by_cases hk : k1 = "embedding"
    · subst hk
      simp only [List.lookup, beq_self_eq_true, Option.some.injEq] at h
      subst h
      simp [List.lookup]
    · have hb : ("embedding" == k1) = false := by
        rw [beq_eq_false_iff_ne]
        exact fun hh => hk hh.symm
      simp only [List.lookup, hb] at h
      simp only [List.map_cons]
      rw [if_neg hk]
      simp only [List.lookup, hb]
      exact ih h

theorem asyncWritePayload_lookup (data : FSDoc) (v : FSValue)
    (h : data.lookup "embedding" = some v) :
    (asyncWritePayload data).lookup "embedding" = some (pyVector v) := by
  unfold asyncWritePayload
  rw [if_pos (by rw [h]; rfl)]
  exact lookup_map_vectorize data v h

/-- C8, counterexample: the synchronous `create`/`set` serialize a record
carrying an `embedding` field WITHOUT encoding it as the store's native
vector type — the written payload keeps the plain JSON array (only the
asynchronous variant wraps it in `Vector`). -/
theorem sync_embedding_not_vector_counterexample :
    syncWritePayload
        [("id", .scalar (.str "u1")), ("embedding", .arr [.num 1, .num 2])]
      = [("id", .scalar (.str "u1")), ("embedding", .arr [.num 1, .num 2])]
    ∧ (syncWritePayload
        [("id", .scalar (.str "u1")), ("embedding", .arr [.num 1, .num 2])]).lookup
          "embedding" = some (.arr [.num 1, .num 2])
    ∧ ¬((syncWritePayload
        [("id", .scalar (.str "u1")), ("embedding", .arr [.num 1, .num 2])]).lookup
          "embedding" = some (.vector [.num 1, .num 2]))
    ∧ (asyncWritePayload
        [("id", .scalar (.str "u1")), ("embedding", .arr [.num 1, .num 2])]).lookup
          "embedding" = some (.vector [.num 1, .num 2]) := by
  refine ⟨rfl, rfl, by decide, rfl⟩

/-- C8, amended: only the ASYNCHRONOUS `create` and `set` encode a
present `embedding` field as the store's native vector type before
writing; the synchronous variant writes the serialized fields unchanged,
leaving the embedding a plain array. -/
theorem embedding_vector_encoding_amended (data : FSDoc) (elems : List FSScalar)
    (store : Store) (objId : String)
    (h : data.lookup "embedding" = some (.arr elems)) :
    (asyncWritePayload data).lookup "embedding" = some (.vector elems)
    ∧ asyncCreateWrite store objId data = store.setDoc objId (asyncWritePayload data)
    ∧ syncWritePayload data = data
    ∧ syncCreateWrite store objId data = store.setDoc objId data := by
  exact ⟨asyncWritePayload_lookup data _ h, rfl, rfl, rfl⟩

/-- C8 witness: the amended theorem at a concrete two-field record. -/
theorem embedding_vector_encoding_amended_witness :
    (asyncWritePayload
        [("id", .scalar (.str "u1")), ("embedding", .arr [.num 1, .num 2])]).lookup
          "embedding" = some (.vector [.num 1, .num 2]) :=
  (embedding_vector_encoding_amended
      [("id", .scalar (.str "u1")), ("embedding", .arr [.num 1, .num 2])]
      [.num 1, .num 2] [] "u1" rfl).1

/-- C9: the lock document id is `create_uuid` (the model of
`uuid5(NAMESPACE_OID, ·)`) applied to the terminal lock-collection name
alone — the last component of the lock collection path — so it is
independent of the lock owner and of the namespace prefix, and two locks
sharing a `lock_collection` name but differing in owner and namespace
compute identical lock document ids. -/
theorem lock_document_id_from_collection_name (lc o1 o2 tlc tld : String)
    (l1 l2 : FirestoreLockRef)
    (h1 : lockInit lc o1 tlc tld = .ok l1)
    (h2 : lockInit lc o2 "" "" = .ok l2) :
    lock_document_id l1 = create_uuid lc
    ∧ lock_document_id l2 = create_uuid lc
    ∧ lock_document_id l1 = lock_document_id l2 := by
  have g1 : lock_document_id l1 = create_uuid lc := by
    unfold lockInit at h1
    split at h1
    · exact absurd h1 (by simp)
    · simp only [Except.ok.injEq] at h1
      subst h1
      unfold lock_document_id lockCollectionPath
      split <;> simp [List.getLastD]
  have g2 : lock_document_id l2 = create_uuid lc := by
    unfold lockInit at h2
    split at h2
    · exact absurd h2 (by simp)
    · simp only [Except.ok.injEq] at h2
      subst h2
      unfold lock_document_id lockCollectionPath
      split <;> simp [List.getLastD]
  exact ⟨g1, g2, g1.trans g2.symm⟩

/-- C9 witness: a namespaced lock and an un-namespaced lock over the
same lock collection, different owners, same document id. -/
theorem lock_document_id_witness :
    lock_document_id { path := ["tenants", "t1", "locks"], lock_owner := "ownerA" }
      = create_uuid "locks"
    ∧ lock_document_id { path := ["locks"], lock_owner := "ownerB" }
      = create_uuid "locks" :=
  ⟨(lock_document_id_from_collection_name "locks" "ownerA" "ownerB" "tenants" "t1"
      { path := ["tenants", "t1", "locks"], lock_owner := "ownerA" }
      { path := ["locks"], lock_owner := "ownerB" } rfl rfl).1,
   (lock_document_id_from_collection_name "locks" "ownerA" "ownerB" "tenants" "t1"
      { path := ["tenants", "t1", "locks"], lock_owner := "ownerA" }
      { path := ["locks"], lock_owner := "ownerB" } rfl rfl).2.1⟩

/-- C10: `list` applies pagination only when both `page` and `size` are
non-`None` (`if page is not None and size is not None`); when exactly
one is provided the query gets no offset/limit at all, so the call
yields all filter-matching records, exactly as when neither is given. -/
theorem list_pagination_both_required (docs : List (String × FSDoc))
    (page size : Option Nat) (filters : List FirestoreFilter)
    (op : FirestoreFilterOperator) (ord : Option FirestoreOrder)
    (h : page = none ∨ size = none) :
    daoList docs page size filters op ord = daoList docs none none filters op ord
    ∧ daoList docs none none filters op ord
      = applyOrder ord ((docs.map Prod.snd).filter
          (fun d => matchesOptFilter (listFilterUnion filters op) d)) := by
  constructor
  · rcases h with h | h <;> subst h
    · cases size <;> rfl
    · cases page <;> rfl
  · simp [daoList, runQuery]

/-- C10 witness: `page = 1` with no `size` behaves as no pagination. -/
theorem list_pagination_both_required_witness :
    daoList [("d1", [("foo", .scalar (.num 1))])] (some 1) none [] .AND none
      = daoList [("d1", [("foo", .scalar (.num 1))])] none none [] .AND none :=
  (list_pagination_both_required [("d1", [("foo", .scalar (.num 1))])]
      (some 1) none [] .AND none (Or.inr rfl)).1

end DataAccess
